import Mathlib

/-
  Verification development for the neural-visualization engine of
  `src/src/components/AIModelShowcase.tsx`.

  Conventions of the shallow embedding:
  * JS numbers are modelled as exact rationals (ℚ) where only field
    arithmetic occurs, and as real numbers (ℝ) where the source calls
    `Math.sin` / `Math.cos` / `Math.PI`.
  * `Math.random()` results are modelled as explicit parameters together
    with the hypothesis `0 ≤ r ∧ r < 1`.
  * The typed-array buffers (`positions`, `colors`, `sizes`) are modelled
    as total functions from the node index.
-/

set_option autoImplicit false

namespace Showcase

/-- The `pattern` field of `MoodSettings`
    (spiral, sphere, cube, wave, explosion or flow). -/
inductive MoodPattern where
  | spiral
  | sphere
  | cube
  | wave
  | explosion
  | flow
deriving DecidableEq

/-- The `patternParams` record of `MoodSettings`; every knob is optional
    exactly as in the TypeScript interface. -/
structure PatternParams where
  radius : Option ℚ
  spread : Option ℚ
  size : Option ℚ
  amplitude : Option ℚ
  frequency : Option ℚ
  wavelength : Option ℚ
  flowSpeed : Option ℚ
deriving DecidableEq

/-- The `MoodSettings` interface. Colors are RGB triples of rationals. -/
structure MoodSettings where
  backgroundColor : String
  particleColors : List (ℚ × ℚ × ℚ)
  animationSpeed : ℚ
  waveIntensity : ℚ
  pattern : MoodPattern
  patternParams : PatternParams
  bloomStrength : ℚ
  description : String
deriving DecidableEq

/-- Preset `moodPresets.calm`. -/
def calm : MoodSettings where
  backgroundColor := "#0a0f18"
  particleColors := [(1, 1, 1), (0.7, 0.9, 1), (0.8, 0.95, 1), (0.75, 0.85, 1)]
  animationSpeed := 0.08
  waveIntensity := 0.5
  pattern := .flow
  patternParams :=
    { radius := some 25, spread := some 45, size := none, amplitude := some 10,
      frequency := some 0.15, wavelength := some 4, flowSpeed := some 0.05 }
  bloomStrength := 0.6
  description := "A sophisticated neural network visualization with smooth, flowing connections representing AI processing patterns."

/-- Preset `moodPresets.energetic`. -/
def energetic : MoodSettings where
  backgroundColor := "#0f1a2d"
  particleColors := [(1, 1, 1), (0.9, 0.7, 1), (0.7, 0.9, 1), (1, 0.8, 0.6)]
  animationSpeed := 0.8
  waveIntensity := 2.5
  pattern := .explosion
  patternParams :=
    { radius := some 30, spread := some 55, size := none, amplitude := some 12,
      frequency := some 1.8, wavelength := none, flowSpeed := none }
  bloomStrength := 1.0
  description := "Dynamic neural pathways showcasing the power of AI-driven solutions and rapid information processing."

/-- Preset `moodPresets.melancholic`. -/
def melancholic : MoodSettings where
  backgroundColor := "#1a1a2d"
  particleColors := [(0.9, 0.9, 1), (0.7, 0.7, 0.9), (0.6, 0.8, 1), (0.8, 0.7, 0.9)]
  animationSpeed := 0.15
  waveIntensity := 0.8
  pattern := .wave
  patternParams :=
    { radius := some 20, spread := some 45, size := none, amplitude := some 10,
      frequency := some 0.4, wavelength := none, flowSpeed := none }
  bloomStrength := 0.5
  description := "Complex wave patterns representing deep learning algorithms processing intricate data structures."

/-- Preset `moodPresets.joyful`. -/
def joyful : MoodSettings where
  backgroundColor := "#0d1f2d"
  particleColors := [(1, 1, 1), (0.8, 1, 0.9), (0.7, 0.9, 1), (0.9, 0.8, 1)]
  animationSpeed := 0.5
  waveIntensity := 1.8
  pattern := .sphere
  patternParams :=
    { radius := some 25, spread := some 50, size := none, amplitude := some 12,
      frequency := some 1.2, wavelength := none, flowSpeed := none }
  bloomStrength := 0.8
  description := "An energetic visualization of AI networks collaborating in perfect harmony, showcasing the beauty of intelligent systems."

/-- The possible results of the JS bracket lookup `moodPresets[mood]` on
    the plain object literal: an own property holding a preset, a truthy
    value inherited from `Object.prototype` (a function, or the
    prototype object itself for `__proto__`), or `undefined` (the only
    falsy outcome). -/
inductive JsLookup where
  | preset (s : MoodSettings)
  | inherited
  | undefinedValue
deriving DecidableEq

/-- Whether a lookup result is one of the preset objects. -/
def JsLookup.isPreset : JsLookup → Bool
  | .preset _ => true
  | _ => false

/-- The property names every plain object literal inherits from
    `Object.prototype`; bracket access on `moodPresets` finds these on
    the prototype chain and each of their values is truthy. -/
def objectPrototypeKeys : List String :=
  ["constructor", "hasOwnProperty", "isPrototypeOf", "propertyIsEnumerable",
   "toLocaleString", "toString", "valueOf", "__proto__",
   "__defineGetter__", "__defineSetter__", "__lookupGetter__", "__lookupSetter__"]

/-- The JS bracket lookup `moodPresets[mood]` on the object literal:
    the four own keys hold the presets; any `Object.prototype` property
    name is found on the prototype chain (a truthy non-preset value);
    every other string yields `undefined`. -/
def moodPresets (mood : String) : JsLookup :=
  if mood = "calm" then .preset calm
  else if mood = "energetic" then .preset energetic
  else if mood = "melancholic" then .preset melancholic
  else if mood = "joyful" then .preset joyful
  else if mood ∈ objectPrototypeKeys then .inherited
  else .undefinedValue

/-- The value assigned by `updateMoodSettings`:
    `moodPresets[mood as keyof typeof moodPresets] || moodPresets.calm`.
    Only `undefined` is falsy, so only a miss of the whole prototype
    chain falls back to the calm preset; a truthy inherited value is
    kept as-is. -/
def updateMoodSettingsChoice (mood : String) : JsLookup :=
  match moodPresets mood with
  | .undefinedValue => .preset calm
  | r => r

/-- The effect tuple returned by `getParticleEffect`. -/
structure ParticleEffect where
  randomness : ℚ
  pulseSpeed : ℚ
  pulseIntensity : ℚ
  lerpFactor : ℚ
  colorPulse : ℚ
  colorSpeed : ℚ
  sizeVariation : ℚ
deriving DecidableEq

/-- Function `getParticleEffect(settings)`: a switch on `settings.pattern` with a
    default branch used by every pattern other than explosion, sphere
    and wave. -/
def getParticleEffect (settings : MoodSettings) : ParticleEffect :=
  match settings.pattern with
  | .explosion =>
    { randomness := 0.4, pulseSpeed := 4.0, pulseIntensity := 0.5,
      lerpFactor := 0.15, colorPulse := 0.2, colorSpeed := 3.0, sizeVariation := 0.4 }
  | .sphere =>
    { randomness := 0.2, pulseSpeed := 3.0, pulseIntensity := 0.3,
      lerpFactor := 0.1, colorPulse := 0.15, colorSpeed := 2.0, sizeVariation := 0.3 }
  | .wave =>
    { randomness := 0.05, pulseSpeed := 1.5, pulseIntensity := 0.15,
      lerpFactor := 0.03, colorPulse := 0.1, colorSpeed := 1.0, sizeVariation := 0.2 }
  | _ =>
    { randomness := 0.01, pulseSpeed := 0.8, pulseIntensity := 0.15,
      lerpFactor := 0.015, colorPulse := 0.05, colorSpeed := 0.5, sizeVariation := 0.1 }

/-- One axis of the easing step in `animate`:
    `node.position.x += (targetX - node.position.x) * lerpFactor`. -/
def lerpAxis (pos target lerpFactor : ℚ) : ℚ :=
  pos + (target - pos) * lerpFactor

/-- One axis of the jitter step in `animate`:
    `node.position.x += (Math.random() - 0.5) * randomness`,
    with the `Math.random()` draw passed in as `rnd`. -/
def jitterAxis (pos rnd randomness : ℚ) : ℚ :=
  pos + (rnd - 0.5) * randomness

/-- The full per-axis position update of one frame of `animate`:
    easing toward the target followed by random jitter, both taken from
    the active preset by `getParticleEffect`. -/
def updateAxis (settings : MoodSettings) (pos target rnd : ℚ) : ℚ :=
  jitterAxis (lerpAxis pos target (getParticleEffect settings).lerpFactor)
    rnd (getParticleEffect settings).randomness

/-- JS `Math.sign`. -/
def jsSign (x : ℚ) : ℚ :=
  if 0 < x then 1 else if x < 0 then -1 else 0

/-- The configured `controls.zoomSpeed`. -/
def zoomSpeed : ℚ := 0.8

/-- The configured `controls.minDistance`. -/
def minDistance : ℚ := 30

/-- The configured `controls.maxDistance`. -/
def maxDistance : ℚ := 100

/-- One `onWheel` event: `delta = -Math.sign(event.deltaY)`,
    `newDistance = Math.max(minDistance, Math.min(maxDistance,
       distance - delta * zoomSpeed * 2))`, then
    `camera.position.setLength(newDistance)`. -/
def wheelStep (distance deltaY : ℚ) : ℚ :=
  max minDistance (min maxDistance (distance - (-(jsSign deltaY)) * zoomSpeed * 2))

/-- Camera distance after a sequence of wheel events, starting from a
    given distance. -/
def wheelRun (d0 : ℚ) (deltas : List ℚ) : ℚ :=
  deltas.foldl wheelStep d0

/-- The initial camera distance: `camera.position.set(40, 0, 0)` with
    `controls.target.set(0, 0, 0)`. -/
def initialCameraDistance : ℚ := 40

/-- The palette color assigned to node `i`:
    `settings.particleColors[i % settings.particleColors.length]`. -/
def paletteColor (settings : MoodSettings) (i : ℕ) : ℚ × ℚ × ℚ :=
  settings.particleColors.getD (i % settings.particleColors.length) (0, 0, 0)

/-- The mutable state touched by the click handler: the captured
    `selectedNode` variable and the geometry color/size buffers. -/
structure SelectionState where
  selected : Option ℕ
  colors : ℕ → ℚ × ℚ × ℚ
  sizes : ℕ → ℚ

/-- Handler `resetNodeColor(index)`: writes the same random grayscale intensity
    `0.7 + Math.random() * 0.3` into all three channels of node `index`;
    the `Math.random()` draw is passed in as `r`. -/
def resetNodeColor (colors : ℕ → ℚ × ℚ × ℚ) (index : ℕ) (r : ℚ) :
    ℕ → ℚ × ℚ × ℚ :=
  Function.update colors index (0.7 + r * 0.3, 0.7 + r * 0.3, 0.7 + r * 0.3)

/-- Handler `handleNodeSelect(index)`: if a node was selected, reset its color;
    toggle `selectedNode`; if the new selection is non-null, force the
    clicked node white and enlarge its size buffer entry to `4.0`.
    Deselection performs no size write. -/
def handleNodeSelect (s : SelectionState) (index : ℕ) (r : ℚ) :
    SelectionState :=
  let colors1 :=
    match s.selected with
    | some prev => resetNodeColor s.colors prev r
    | none => s.colors
  if s.selected = some index then
    { selected := none, colors := colors1, sizes := s.sizes }
  else
    { selected := some index,
      colors := Function.update colors1 index (1, 1, 1),
      sizes := Function.update s.sizes index 4 }

/-- Helix parameter `helixRadius = 15`. -/
def helixRadius : ℝ := 15

/-- Helix parameter `helixHeight = 40`. -/
def helixHeight : ℝ := 40

/-- Helix parameter `helixTurns = 2`. -/
def helixTurns : ℝ := 2

/-- Helix parameter `helixOffset = Math.PI`, the phase offset between
    the two strands. -/
noncomputable def helixOffset : ℝ := Real.pi

/-- Generation step `const isSecondStrand = i >= nodeCount / 2` (JS division, exact on
    the rationals). -/
def isSecondStrand (n i : ℕ) : Bool :=
  decide ((n : ℚ) / 2 ≤ (i : ℚ))

/-- Generation step `const strandIndex = isSecondStrand ? i - nodeCount / 2 : i`. -/
noncomputable def strandIndex (n i : ℕ) : ℝ :=
  if isSecondStrand n i then (i : ℝ) - (n : ℝ) / 2 else (i : ℝ)

/-- Generation step `const progress = (strandIndex / (nodeCount / 2)) * Math.PI * 2 * helixTurns`. -/
noncomputable def progressOf (n i : ℕ) : ℝ :=
  strandIndex n i / ((n : ℝ) / 2) * Real.pi * 2 * helixTurns

/-- Generation step `const angle = progress + (isSecondStrand ? helixOffset : 0)`,
    stored on the node as `baseAngle`. -/
noncomputable def baseAngle (n i : ℕ) : ℝ :=
  progressOf n i + (if isSecondStrand n i then helixOffset else 0)

/-- Generation step `const heightProgress = (strandIndex / (nodeCount / 2)) * 2 - 1`. -/
noncomputable def heightProgress (n i : ℕ) : ℝ :=
  strandIndex n i / ((n : ℝ) / 2) * 2 - 1

/-- The generated node position
    `(cos(angle) * helixRadius, heightProgress * helixHeight, sin(angle) * helixRadius)`. -/
noncomputable def initialPosition (n i : ℕ) : ℝ × ℝ × ℝ :=
  (Real.cos (baseAngle n i) * helixRadius,
   heightProgress n i * helixHeight,
   Real.sin (baseAngle n i) * helixRadius)

/-- Function `updateParticleColors(node, i, time, colors, settings, selectedNode,
    hoveredNode)`: the RGB triple written into the color buffer for node
    `i`. `posLen` is `node.position.length()`. -/
noncomputable def updateParticleColors (posLen : ℝ) (i : ℕ) (time : ℝ)
    (settings : MoodSettings) (selectedNode hoveredNode : Option ℕ) : ℝ × ℝ × ℝ :=
  let effect := getParticleEffect settings
  let baseColor := paletteColor settings i
  let timeFactor := time * (effect.colorSpeed : ℝ)
  let distanceFactor := Real.sin (posLen * 0.1 + timeFactor) * 0.5 + 0.5
  let uniqueFactor := Real.sin ((i : ℝ) * 0.1 + timeFactor) * 0.5 + 0.5
  let colorPulse := Real.sin (timeFactor + (i : ℝ) * 0.1) * (effect.colorPulse : ℝ)
  if selectedNode = some i then
    let pulse := Real.sin (time * 5) * 0.2 + 0.8
    (pulse, pulse, pulse)
  else if hoveredNode = some i then
    let hoverPulse := Real.sin (time * 3) * 0.15 + 0.85
    (min ((baseColor.1 : ℝ) * 1.3 * hoverPulse) 1,
     min ((baseColor.2.1 : ℝ) * 1.3 * hoverPulse) 1,
     min ((baseColor.2.2 : ℝ) * 1.3 * hoverPulse) 1)
  else
    let intensity := 0.7 + distanceFactor * 0.2 + uniqueFactor * 0.1 + colorPulse
    (min ((baseColor.1 : ℝ) * intensity) 1,
     min ((baseColor.2.1 : ℝ) * intensity) 1,
     min ((baseColor.2.2 : ℝ) * intensity) 1)

/-- Length `v.length()` of a three.js vector. -/
noncomputable def vecLength (v : ℝ × ℝ × ℝ) : ℝ :=
  Real.sqrt (v.1 ^ 2 + v.2.1 ^ 2 + v.2.2 ^ 2)

/-- The target position computed by the `switch (settings.pattern)` in
    `animate`, with `nodeTime = time + i * 0.1`. Patterns without a case
    (spiral, cube) leave the targets at their initial value 0. The
    non-null assertions on `patternParams` are modelled by `getD 0`
    (every preset defines the knobs its own pattern reads). -/
noncomputable def computeTarget (settings : MoodSettings) (nodeCount i : ℕ)
    (time : ℝ) (pos : ℝ × ℝ × ℝ) : ℝ × ℝ × ℝ :=
  let nodeTime := time + (i : ℝ) * 0.1
  match settings.pattern with
  | .flow =>
    let flowTime := time * ((settings.patternParams.flowSpeed.getD 0 : ℚ) : ℝ)
    let baseFreq := ((settings.patternParams.frequency.getD 0 : ℚ) : ℝ)
    let waveLength := ((settings.patternParams.wavelength.getD 0 : ℚ) : ℝ)
    let wave1 := Real.sin (nodeTime * baseFreq + pos.1 / waveLength)
    let wave2 := Real.cos (nodeTime * baseFreq * 0.5 + pos.2.2 / waveLength)
    let wave3 := Real.sin (flowTime * 0.7 + (pos.1 + pos.2.2) / waveLength)
    let combinedWave := (wave1 * 0.4 + wave2 * 0.3 + wave3 * 0.3) *
      ((settings.patternParams.amplitude.getD 0 : ℚ) : ℝ)
    let flowRadius := ((settings.patternParams.radius.getD 0 : ℚ) : ℝ)
    let flowAngle := ((i : ℝ) / (nodeCount : ℝ)) * Real.pi * 2 + flowTime * 0.2
    let radialOffset := Real.sin (flowTime + (i : ℝ) * 0.1) * 5
    (Real.cos flowAngle * (flowRadius + radialOffset) + Real.sin (flowTime * 0.2) * 5,
     combinedWave + Real.sin (flowTime * 0.15 + (i : ℝ) * 0.05) * 2,
     Real.sin flowAngle * (flowRadius + radialOffset) + Real.cos (flowTime * 0.2) * 5)
  | .explosion =>
    let explosionRadius := ((settings.patternParams.radius.getD 0 : ℚ) : ℝ) *
      (1 + Real.sin nodeTime * 0.3)
    let explosionAngle := ((i : ℝ) / (nodeCount : ℝ)) * Real.pi * 2 +
      time * (settings.animationSpeed : ℝ)
    let verticalMotion := Real.sin (nodeTime * 2) *
      ((settings.patternParams.amplitude.getD 0 : ℚ) : ℝ)
    let orbitSpeed := time * (settings.animationSpeed : ℝ) * 2
    (Real.cos explosionAngle * explosionRadius * (1 + Real.sin orbitSpeed * 0.3),
     verticalMotion + Real.sin (time * 3 + (i : ℝ)) *
       ((settings.patternParams.spread.getD 0 : ℚ) : ℝ) * 0.3,
     Real.sin explosionAngle * explosionRadius * (1 + Real.cos orbitSpeed * 0.3))
  | .wave =>
    let baseX := ((i % 10 : ℕ) : ℝ) * 4 - 20
    let baseZ := ((i / 10 : ℕ) : ℝ) * 4 - 20
    let wavePhase := baseX * ((settings.patternParams.frequency.getD 0 : ℚ) : ℝ) +
      time * (settings.animationSpeed : ℝ)
    let primaryWave := Real.sin wavePhase *
      ((settings.patternParams.amplitude.getD 0 : ℚ) : ℝ)
    let secondaryWave := Real.cos (wavePhase * 0.5) *
      ((settings.patternParams.amplitude.getD 0 : ℚ) : ℝ) * 0.5
    (baseX + Real.sin (time * 0.2 + (i : ℝ) * 0.05) * 2,
     primaryWave + secondaryWave,
     baseZ + Real.cos (time * 0.2 + (i : ℝ) * 0.05) * 2)
  | .sphere =>
    let phi := Real.arccos (-1 + (2 * (i : ℝ)) / (nodeCount : ℝ))
    let theta := Real.sqrt ((nodeCount : ℝ) * Real.pi) * phi +
      time * (settings.animationSpeed : ℝ)
    let radius := ((settings.patternParams.radius.getD 0 : ℚ) : ℝ) *
      (1 + Real.sin (nodeTime * 2) * 0.2)
    let bounce := Real.sin (time * 3) *
      ((settings.patternParams.amplitude.getD 0 : ℚ) : ℝ) * 0.3
    (radius * Real.cos theta * Real.sin phi,
     radius * Real.sin theta * Real.sin phi + bounce,
     radius * Real.cos phi)
  | _ => (0, 0, 0)

/-- The new position of node `i` in one frame of `animate`: the easing
    step toward the pattern target followed by per-axis random jitter;
    `rnd` is the triple of `Math.random()` draws of this node. -/
noncomputable def updateNodePosition (settings : MoodSettings) (nodeCount i : ℕ)
    (time : ℝ) (pos rnd : ℝ × ℝ × ℝ) : ℝ × ℝ × ℝ :=
  let target := computeTarget settings nodeCount i time pos
  let l := ((getParticleEffect settings).lerpFactor : ℝ)
  let rd := ((getParticleEffect settings).randomness : ℝ)
  (pos.1 + (target.1 - pos.1) * l + (rnd.1 - 0.5) * rd,
   pos.2.1 + (target.2.1 - pos.2.1) * l + (rnd.2.1 - 0.5) * rd,
   pos.2.2 + (target.2.2 - pos.2.2) * l + (rnd.2.2 - 0.5) * rd)

/-- Per-frame value `const basePulse = Math.sin(time * particleEffect.pulseSpeed + i * 0.1)
    * particleEffect.pulseIntensity + 1.0`, computed for each node in
    every frame of `animate` and then never stored anywhere. -/
noncomputable def basePulse (time : ℝ) (i : ℕ) (effect : ParticleEffect) : ℝ :=
  Real.sin (time * (effect.pulseSpeed : ℝ) + (i : ℝ) * 0.1) *
    (effect.pulseIntensity : ℝ) + 1

/-- The engine state touched by one frame of `animate`: node positions,
    the color and size buffers, and the selection record. -/
structure EngineState where
  positions : ℕ → ℝ × ℝ × ℝ
  colors : ℕ → ℝ × ℝ × ℝ
  sizes : ℕ → ℝ
  selectedNode : Option ℕ
  hoveredNode : Option ℕ

/-- One frame of `animate` over the `nodes.forEach` body: every node
    below `nodeCount` gets the eased-plus-jittered position and the
    color written by `updateParticleColors` (fed the already-updated
    position length, as in the source order). No statement of the loop
    writes the size buffer (`basePulse` is discarded), and
    `selectedNode` / `hoveredNode` are only read. -/
noncomputable def animateFrame (settings : MoodSettings) (nodeCount : ℕ)
    (time : ℝ) (rnd : ℕ → ℝ × ℝ × ℝ) (s : EngineState) : EngineState where
  positions := fun i =>
    if i < nodeCount then
      updateNodePosition settings nodeCount i time (s.positions i) (rnd i)
    else s.positions i
  colors := fun i =>
    if i < nodeCount then
      updateParticleColors
        (vecLength (updateNodePosition settings nodeCount i time (s.positions i) (rnd i)))
        i time settings s.selectedNode s.hoveredNode
    else s.colors i
  sizes := s.sizes
  selectedNode := s.selectedNode
  hoveredNode := s.hoveredNode

/-- The `animate` callback with its liveness guard:
    `if (!isActive) return;` precedes `requestAnimationFrame(animate)`
    and all buffer work. The boolean result records whether the callback
    ran its body (rescheduled itself, mutated buffers, rendered). -/
noncomputable def animateCallback (isActive : Bool) (settings : MoodSettings)
    (nodeCount : ℕ) (time : ℝ) (rnd : ℕ → ℝ × ℝ × ℝ) (s : EngineState) :
    EngineState × Bool :=
  if isActive then (animateFrame settings nodeCount time rnd s, true)
  else (s, false)

/-- The engine state right after setup: 300 double-helix node positions
    together with the generated color/size buffers and the selection
    record. -/
noncomputable def engineStart (colors0 : ℕ → ℝ × ℝ × ℝ) (sizes0 : ℕ → ℝ)
    (sel hov : Option ℕ) : EngineState where
  positions := fun i => initialPosition 300 i
  colors := colors0
  sizes := sizes0
  selectedNode := sel
  hoveredNode := hov

/-- Every effect tuple in the table has nonnegative `lerpFactor` and
    `randomness`. -/
theorem getParticleEffect_nonneg (settings : MoodSettings) :
    0 ≤ (getParticleEffect settings).lerpFactor ∧
      0 ≤ (getParticleEffect settings).randomness := by
  cases h : settings.pattern <;> simp [getParticleEffect, h] <;> constructor <;> norm_num

theorem wheelStep_mem (d delta : ℚ) :
    minDistance ≤ wheelStep d delta ∧ wheelStep d delta ≤ maxDistance := by
  unfold wheelStep minDistance maxDistance
  constructor
  · exact le_max_left _ _
  · exact max_le (by norm_num) (min_le_left _ _)

theorem wheelRun_mem (d0 : ℚ) (h0 : minDistance ≤ d0 ∧ d0 ≤ maxDistance)
    (deltas : List ℚ) :
    minDistance ≤ wheelRun d0 deltas ∧ wheelRun d0 deltas ≤ maxDistance := by
  induction deltas generalizing d0 with
  | nil => exact h0
  | cons delta rest ih =>
    exact ih (wheelStep d0 delta) (wheelStep_mem d0 delta)

/-- C1: for every motion preset, per axis, one frame of the position
    update of `animate` moves the node by at most
    `|target - oldPos| * lerpFactor + randomness`, where the easing step
    contributes `(target - pos) * lerpFactor` and the jitter step at
    most `randomness / 2`. -/
theorem updateAxis_displacement_bound (settings : MoodSettings)
    (pos target rnd : ℚ) (h0 : 0 ≤ rnd) (h1 : rnd < 1) :
    |updateAxis settings pos target rnd - pos| ≤
      |target - pos| * (getParticleEffect settings).lerpFactor +
        (getParticleEffect settings).randomness := by
  obtain ⟨hl, hr⟩ := getParticleEffect_nonneg settings
  have heq : updateAxis settings pos target rnd - pos =
      (target - pos) * (getParticleEffect settings).lerpFactor +
        (rnd - 0.5) * (getParticleEffect settings).randomness := by
    simp only [updateAxis, jitterAxis, lerpAxis]
    ring
  have habs : |rnd - 0.5| ≤ 0.5 := by
    rw [abs_le]
    constructor <;> linarith
  rw [heq]
  calc |(target - pos) * (getParticleEffect settings).lerpFactor +
        (rnd - 0.5) * (getParticleEffect settings).randomness|
      ≤ |(target - pos) * (getParticleEffect settings).lerpFactor| +
        |(rnd - 0.5) * (getParticleEffect settings).randomness| := abs_add _ _
    _ = |target - pos| * (getParticleEffect settings).lerpFactor +
        |rnd - 0.5| * (getParticleEffect settings).randomness := by
        rw [abs_mul, abs_mul, abs_of_nonneg hl, abs_of_nonneg hr]
    _ ≤ |target - pos| * (getParticleEffect settings).lerpFactor +
        0.5 * (getParticleEffect settings).randomness :=
        add_le_add_left (mul_le_mul_of_nonneg_right habs hr) _
    _ ≤ |target - pos| * (getParticleEffect settings).lerpFactor +
        (getParticleEffect settings).randomness := by linarith

/-- C1 witness: the bound instantiated at the calm preset,
    `pos = 0`, `target = 1`, random draw `1/2`. -/
theorem updateAxis_displacement_bound_witness :
    |updateAxis calm 0 1 (1/2) - 0| ≤
      |1 - 0| * (getParticleEffect calm).lerpFactor +
        (getParticleEffect calm).randomness :=
  updateAxis_displacement_bound calm 0 1 (1/2) (by norm_num) (by norm_num)

/-- C2: starting from the initial camera distance 40, after any
    sequence of wheel events the camera distance stays within the
    configured `[minDistance, maxDistance] = [30, 100]` range, because
    each wheel event clamps the new distance before applying it. -/
theorem wheel_zoom_clamped (deltas : List ℚ) :
    minDistance ≤ wheelRun initialCameraDistance deltas ∧
      wheelRun initialCameraDistance deltas ≤ maxDistance :=
  wheelRun_mem initialCameraDistance
    (by constructor <;> norm_num [minDistance, maxDistance, initialCameraDistance])
    deltas

/-- C5: with nothing selected, clicking node `i` selects it, and
    clicking node `i` again returns the selection to `none`. -/
theorem select_toggle_roundtrip (s : SelectionState) (i : ℕ) (r r2 : ℚ)
    (h : s.selected = none) :
    (handleNodeSelect s i r).selected = some i ∧
      (handleNodeSelect (handleNodeSelect s i r) i r2).selected = none := by
  have h1 : (handleNodeSelect s i r).selected = some i := by
    simp [handleNodeSelect, h]
  refine ⟨h1, ?_⟩
  set s1 := handleNodeSelect s i r with hs1
  simp [handleNodeSelect, h1]

/-- C5 witness: the round trip at a concrete idle state and node 0. -/
theorem select_toggle_roundtrip_witness :
    (handleNodeSelect ⟨none, fun _ => (0, 0, 0), fun _ => 1⟩ 0 0).selected = some 0 ∧
      (handleNodeSelect (handleNodeSelect ⟨none, fun _ => (0, 0, 0), fun _ => 1⟩ 0 0) 0 0).selected = none :=
  select_toggle_roundtrip ⟨none, fun _ => (0, 0, 0), fun _ => 1⟩ 0 0 0 rfl

/-- C4 counterexample: with node 1 selected (its idle calm-palette
    color being `(0.7, 0.9, 1)`), clicking node 2 does select node 2,
    but the color of node 1 becomes the uniform grayscale `(0.7, 0.7, 0.7)`
    (random draw 0), which is not its idle palette value; and
    selecting then deselecting node 5 leaves its size buffer entry at
    the enlarged `4.0`, not the idle `1`. -/
theorem handleNodeSelect_not_palette_restore :
    ((handleNodeSelect ⟨some 1, fun _ => (0.7, 0.9, 1), fun _ => 1⟩ 2 0).selected = some 2 ∧
     (handleNodeSelect ⟨some 1, fun _ => (0.7, 0.9, 1), fun _ => 1⟩ 2 0).colors 1 = (0.7, 0.7, 0.7) ∧
     paletteColor calm 1 = (0.7, 0.9, 1) ∧
     ((0.7 : ℚ), (0.7 : ℚ), (0.7 : ℚ)) ≠ ((0.7 : ℚ), (0.9 : ℚ), (1 : ℚ))) ∧
    ((handleNodeSelect (handleNodeSelect ⟨none, fun _ => (0.7, 0.9, 1), fun _ => 1⟩ 5 0) 5 0).sizes 5 = 4 ∧
     (4 : ℚ) ≠ 1) := by
  refine ⟨⟨?_, ?_, ?_, ?_⟩, ?_, ?_⟩
  · norm_num [handleNodeSelect]
  · norm_num [handleNodeSelect, resetNodeColor, Function.update]
  · norm_num [paletteColor, calm]
  · norm_num [Prod.ext_iff]
  · decide
  · norm_num

/-- C4 amended: clicking node `j` while node `i ≠ j` is selected yields
    `selected = some j`, sets the color of node `i` to the uniform grayscale
    `0.7 + 0.3 * r` on every channel (the palette color only returns via
    the color pass of the next frame), forces node `j` to pure white
    `(1, 1, 1)` and size `4.0`; clicking the selected node `i` itself
    deselects it, likewise sets the grayscale color, and leaves the size
    buffer untouched (the enlarged size persists). -/
theorem handleNodeSelect_spec (s : SelectionState) (i j : ℕ) (r : ℚ)
    (hsel : s.selected = some i) (hij : i ≠ j) :
    ((handleNodeSelect s j r).selected = some j ∧
     (handleNodeSelect s j r).colors i =
       (0.7 + r * 0.3, 0.7 + r * 0.3, 0.7 + r * 0.3) ∧
     (handleNodeSelect s j r).colors j = (1, 1, 1) ∧
     (handleNodeSelect s j r).sizes j = 4) ∧
    ((handleNodeSelect s i r).selected = none ∧
     (handleNodeSelect s i r).colors i =
       (0.7 + r * 0.3, 0.7 + r * 0.3, 0.7 + r * 0.3) ∧
     (handleNodeSelect s i r).sizes = s.sizes) := by
  have hne : s.selected ≠ some j := by
    rw [hsel]
    simp [hij]
  constructor
  · refine ⟨?_, ?_, ?_, ?_⟩
    · simp [handleNodeSelect, hne]
    · simp [handleNodeSelect, hne, hsel, resetNodeColor, Function.update, hij]
    · simp [handleNodeSelect, hne, hsel, resetNodeColor, Function.update, hij]
    · simp [handleNodeSelect, hne, hsel, Function.update, hij]
  · refine ⟨?_, ?_, ?_⟩
    · simp [handleNodeSelect, hsel]
    · simp [handleNodeSelect, hsel, resetNodeColor, Function.update]
    · simp [handleNodeSelect, hsel]

/-- C4 amended witness: the amended behavior at a concrete state with
    node 1 selected, clicking node 2 (and deselecting node 1), with
    random draw `1/2`. -/
theorem handleNodeSelect_spec_witness :
    ((handleNodeSelect ⟨some 1, fun _ => (0, 0, 0), fun _ => 1⟩ 2 (1/2)).selected = some 2 ∧
     (handleNodeSelect ⟨some 1, fun _ => (0, 0, 0), fun _ => 1⟩ 2 (1/2)).colors 1 =
       (0.7 + (1/2) * 0.3, 0.7 + (1/2) * 0.3, 0.7 + (1/2) * 0.3) ∧
     (handleNodeSelect ⟨some 1, fun _ => (0, 0, 0), fun _ => 1⟩ 2 (1/2)).colors 2 = (1, 1, 1) ∧
     (handleNodeSelect ⟨some 1, fun _ => (0, 0, 0), fun _ => 1⟩ 2 (1/2)).sizes 2 = 4) ∧
    ((handleNodeSelect ⟨some 1, fun _ => (0, 0, 0), fun _ => 1⟩ 1 (1/2)).selected = none ∧
     (handleNodeSelect ⟨some 1, fun _ => (0, 0, 0), fun _ => 1⟩ 1 (1/2)).colors 1 =
       (0.7 + (1/2) * 0.3, 0.7 + (1/2) * 0.3, 0.7 + (1/2) * 0.3) ∧
     (handleNodeSelect ⟨some 1, fun _ => (0, 0, 0), fun _ => 1⟩ 1 (1/2)).sizes =
       (⟨some 1, fun _ => (0, 0, 0), fun _ => 1⟩ : SelectionState).sizes) :=
  handleNodeSelect_spec ⟨some 1, fun _ => (0, 0, 0), fun _ => 1⟩ 1 2 (1/2) rfl
    (by norm_num)

theorem isSecondStrand_iff (h i : ℕ) : isSecondStrand (2 * h) i = true ↔ h ≤ i := by
  simp only [isSecondStrand, decide_eq_true_eq]
  have hcast : ((2 * h : ℕ) : ℚ) / 2 = (h : ℚ) := by
    push_cast
    ring
  rw [hcast, Nat.cast_le]

theorem strand_filter_eq (h : ℕ) :
    (Finset.range (2 * h)).filter (fun i => isSecondStrand (2 * h) i = true) =
      Finset.Ico h (2 * h) := by
  ext i
  simp only [Finset.mem_filter, Finset.mem_range, Finset.mem_Ico, isSecondStrand_iff]
  omega

theorem strand_filter_eq_first (h : ℕ) :
    (Finset.range (2 * h)).filter (fun i => isSecondStrand (2 * h) i = false) =
      Finset.range h := by
  ext i
  simp only [Finset.mem_filter, Finset.mem_range, Bool.not_eq_true (isSecondStrand (2 * h) i),
    ← Bool.not_eq_true, isSecondStrand_iff]
  omega

/-- C3: for an even node count `2h`, exactly `h` nodes are tagged as the
    second strand and `h` as the first, and for corresponding indices
    `i` and `i + h` the two `baseAngle` values differ by exactly π (the
    helix offset). -/
theorem helix_strand_partition (h : ℕ) :
    (((Finset.range (2 * h)).filter (fun i => isSecondStrand (2 * h) i = true)).card = h ∧
     ((Finset.range (2 * h)).filter (fun i => isSecondStrand (2 * h) i = false)).card = h) ∧
    ∀ i, i < h → baseAngle (2 * h) (i + h) - baseAngle (2 * h) i = Real.pi := by
  refine ⟨⟨?_, ?_⟩, ?_⟩
  · rw [strand_filter_eq, Nat.card_Ico]
    omega
  · rw [strand_filter_eq_first, Finset.card_range]
  · intro i hi
    have hsnd : isSecondStrand (2 * h) (i + h) = true :=
      (isSecondStrand_iff h (i + h)).mpr (by omega)
    have hfst : ¬ isSecondStrand (2 * h) i = true := by
      rw [isSecondStrand_iff]
      omega
    have hsi2 : strandIndex (2 * h) (i + h) = (i : ℝ) := by
      rw [strandIndex, if_pos hsnd]
      push_cast
      ring
    have hsi1 : strandIndex (2 * h) i = (i : ℝ) := by
      rw [strandIndex, if_neg hfst]
    rw [baseAngle, baseAngle, progressOf, progressOf, hsi1, hsi2, if_pos hsnd,
      if_neg hfst, helixOffset]
    ring

/-- C3 witness: at node count 2 (`h = 1`), one node per strand and the
    base angles of nodes 1 and 0 differ by exactly π. -/
theorem helix_strand_partition_witness :
    ((Finset.range (2 * 1)).filter (fun i => isSecondStrand (2 * 1) i = true)).card = 1 ∧
      baseAngle (2 * 1) (0 + 1) - baseAngle (2 * 1) 0 = Real.pi :=
  ⟨(helix_strand_partition 1).1.1, (helix_strand_partition 1).2 0 (by norm_num)⟩

/-- C10 counterexample: at the input string "toString" the bracket
    lookup hits `Object.prototype.toString`, a truthy inherited
    function, so the `|| moodPresets.calm` fallback does not fire: the
    result is not the calm preset and not any preset object at all,
    refuting the claimed fallback-to-calm totality over every input
    string. -/
theorem moodPresets_prototype_no_fallback :
    updateMoodSettingsChoice "toString" = .inherited ∧
      (updateMoodSettingsChoice "toString").isPreset = false ∧
      updateMoodSettingsChoice "toString" ≠ .preset calm := by
  refine ⟨rfl, rfl, ?_⟩
  intro h
  exact JsLookup.noConfusion h

/-- C10 amended: the preset-update lookup selects the preset of each of
    the four own keys; a string that is neither an own key nor an
    `Object.prototype` property name yields `undefined` and falls back
    to the calm preset; but an `Object.prototype` property name
    (toString, constructor, valueOf, ...) finds a truthy inherited
    value, skips the fallback, and leaves the settings holding a
    non-preset value — so the operation is not total over every input
    string. -/
theorem updateMoodSettingsChoice_spec (mood : String) :
    (updateMoodSettingsChoice "calm" = .preset calm ∧
     updateMoodSettingsChoice "energetic" = .preset energetic ∧
     updateMoodSettingsChoice "melancholic" = .preset melancholic ∧
     updateMoodSettingsChoice "joyful" = .preset joyful) ∧
    (mood ≠ "calm" → mood ≠ "energetic" → mood ≠ "melancholic" →
      mood ≠ "joyful" → mood ∉ objectPrototypeKeys →
      updateMoodSettingsChoice mood = .preset calm) ∧
    (mood ≠ "calm" → mood ≠ "energetic" → mood ≠ "melancholic" →
      mood ≠ "joyful" → mood ∈ objectPrototypeKeys →
      updateMoodSettingsChoice mood = .inherited) := by
  refine ⟨⟨rfl, rfl, rfl, rfl⟩, ?_, ?_⟩
  · intro h1 h2 h3 h4 h5
    simp [updateMoodSettingsChoice, moodPresets, h1, h2, h3, h4, h5]
  · intro h1 h2 h3 h4 h5
    simp [updateMoodSettingsChoice, moodPresets, h1, h2, h3, h4, h5]

/-- C10 amended witness: "mysterious" (no own key, no prototype
    property) falls back to the calm preset, while "toString" is kept
    as the truthy inherited value. -/
theorem updateMoodSettingsChoice_spec_witness :
    updateMoodSettingsChoice "mysterious" = .preset calm ∧
      updateMoodSettingsChoice "toString" = .inherited :=
  ⟨(updateMoodSettingsChoice_spec "mysterious").2.1 (by decide) (by decide)
      (by decide) (by decide) (by decide),
   (updateMoodSettingsChoice_spec "toString").2.2 (by decide) (by decide)
      (by decide) (by decide) (by decide)⟩

theorem getParticleEffect_colorPulse_mem (settings : MoodSettings) :
    0 ≤ (getParticleEffect settings).colorPulse ∧
      (getParticleEffect settings).colorPulse ≤ 0.2 := by
  cases h : settings.pattern <;> simp [getParticleEffect, h] <;> norm_num

theorem paletteColor_mem (settings : MoodSettings) (i : ℕ)
    (hpal : ∀ c ∈ settings.particleColors,
      0 ≤ c.1 ∧ c.1 ≤ 1 ∧ 0 ≤ c.2.1 ∧ c.2.1 ≤ 1 ∧ 0 ≤ c.2.2 ∧ c.2.2 ≤ 1) :
    0 ≤ (paletteColor settings i).1 ∧ (paletteColor settings i).1 ≤ 1 ∧
      0 ≤ (paletteColor settings i).2.1 ∧ (paletteColor settings i).2.1 ≤ 1 ∧
      0 ≤ (paletteColor settings i).2.2 ∧ (paletteColor settings i).2.2 ≤ 1 := by
  unfold paletteColor
  by_cases hlen : i % settings.particleColors.length < settings.particleColors.length
  · have hmem : settings.particleColors.getD
        (i % settings.particleColors.length) (0, 0, 0) ∈ settings.particleColors := by
      rw [List.getD_eq_getElem settings.particleColors (0, 0, 0) hlen]
      exact List.getElem_mem hlen
    exact hpal _ hmem
  · rw [List.getD_eq_default settings.particleColors (0, 0, 0) (le_of_not_lt hlen)]
    norm_num

theorem clamp01_mem (y : ℝ) (hy : 0 ≤ y) : 0 ≤ min y 1 ∧ min y 1 ≤ 1 :=
  ⟨le_min hy (by norm_num), min_le_right _ _⟩

/-- C6: the per-frame coloring of `updateParticleColors` follows the
    priority order: a selected node gets a near-white pulsing color
    (equal channels in [0.6, 1]) overriding hover; otherwise a hovered
    node gets its palette color brightened by the fixed multiplier 1.3
    with the pulse `sin(time * 3) * 0.15 + 0.85`; otherwise the node
    gets its palette color (index mod palette length) times the
    sinusoidally modulated intensity; and every written channel lies in
    [0, 1], provided the palette channels lie in [0, 1]. -/
theorem updateParticleColors_priority (posLen : ℝ) (i : ℕ) (time : ℝ)
    (settings : MoodSettings) (sel hov : Option ℕ)
    (hpal : ∀ c ∈ settings.particleColors,
      0 ≤ c.1 ∧ c.1 ≤ 1 ∧ 0 ≤ c.2.1 ∧ c.2.1 ≤ 1 ∧ 0 ≤ c.2.2 ∧ c.2.2 ≤ 1) :
    (sel = some i →
      ∃ p, updateParticleColors posLen i time settings sel hov = (p, p, p) ∧
        0.6 ≤ p ∧ p ≤ 1) ∧
    (sel ≠ some i → hov = some i →
      updateParticleColors posLen i time settings sel hov =
        (min (((paletteColor settings i).1 : ℝ) * 1.3 * (Real.sin (time * 3) * 0.15 + 0.85)) 1,
         min (((paletteColor settings i).2.1 : ℝ) * 1.3 * (Real.sin (time * 3) * 0.15 + 0.85)) 1,
         min (((paletteColor settings i).2.2 : ℝ) * 1.3 * (Real.sin (time * 3) * 0.15 + 0.85)) 1)) ∧
    (sel ≠ some i → hov ≠ some i →
      updateParticleColors posLen i time settings sel hov =
        (min (((paletteColor settings i).1 : ℝ) *
            (0.7 + (Real.sin (posLen * 0.1 + time * ((getParticleEffect settings).colorSpeed : ℝ)) * 0.5 + 0.5) * 0.2 +
              (Real.sin ((i : ℝ) * 0.1 + time * ((getParticleEffect settings).colorSpeed : ℝ)) * 0.5 + 0.5) * 0.1 +
              Real.sin (time * ((getParticleEffect settings).colorSpeed : ℝ) + (i : ℝ) * 0.1) *
                ((getParticleEffect settings).colorPulse : ℝ))) 1,
         min (((paletteColor settings i).2.1 : ℝ) *
            (0.7 + (Real.sin (posLen * 0.1 + time * ((getParticleEffect settings).colorSpeed : ℝ)) * 0.5 + 0.5) * 0.2 +
              (Real.sin ((i : ℝ) * 0.1 + time * ((getParticleEffect settings).colorSpeed : ℝ)) * 0.5 + 0.5) * 0.1 +
              Real.sin (time * ((getParticleEffect settings).colorSpeed : ℝ) + (i : ℝ) * 0.1) *
                ((getParticleEffect settings).colorPulse : ℝ))) 1,
         min (((paletteColor settings i).2.2 : ℝ) *
            (0.7 + (Real.sin (posLen * 0.1 + time * ((getParticleEffect settings).colorSpeed : ℝ)) * 0.5 + 0.5) * 0.2 +
              (Real.sin ((i : ℝ) * 0.1 + time * ((getParticleEffect settings).colorSpeed : ℝ)) * 0.5 + 0.5) * 0.1 +
              Real.sin (time * ((getParticleEffect settings).colorSpeed : ℝ) + (i : ℝ) * 0.1) *
                ((getParticleEffect settings).colorPulse : ℝ))) 1)) ∧
    (0 ≤ (updateParticleColors posLen i time settings sel hov).1 ∧
     (updateParticleColors posLen i time settings sel hov).1 ≤ 1 ∧
     0 ≤ (updateParticleColors posLen i time settings sel hov).2.1 ∧
     (updateParticleColors posLen i time settings sel hov).2.1 ≤ 1 ∧
     0 ≤ (updateParticleColors posLen i time settings sel hov).2.2 ∧
     (updateParticleColors posLen i time settings sel hov).2.2 ≤ 1) := by
  obtain ⟨hb1, hb2, hb3, hb4, hb5, hb6⟩ := paletteColor_mem settings i hpal
  have hb1r : (0 : ℝ) ≤ ((paletteColor settings i).1 : ℝ) := by exact_mod_cast hb1
  have hb3r : (0 : ℝ) ≤ ((paletteColor settings i).2.1 : ℝ) := by exact_mod_cast hb3
  have hb5r : (0 : ℝ) ≤ ((paletteColor settings i).2.2 : ℝ) := by exact_mod_cast hb5
  obtain ⟨hcp1, hcp2⟩ := getParticleEffect_colorPulse_mem settings
  have hcp1r : (0 : ℝ) ≤ ((getParticleEffect settings).colorPulse : ℝ) := by
    exact_mod_cast hcp1
  have hcp2r : ((getParticleEffect settings).colorPulse : ℝ) ≤ 0.2 := by
    have : ((getParticleEffect settings).colorPulse : ℝ) ≤ ((0.2 : ℚ) : ℝ) := by
      exact_mod_cast hcp2
    calc ((getParticleEffect settings).colorPulse : ℝ) ≤ ((0.2 : ℚ) : ℝ) := this
      _ = 0.2 := by norm_num
  have hhover : 0 ≤ Real.sin (time * 3) * 0.15 + 0.85 := by
    nlinarith [Real.neg_one_le_sin (time * 3)]
  have hinten : 0 ≤ 0.7 +
      (Real.sin (posLen * 0.1 + time * ((getParticleEffect settings).colorSpeed : ℝ)) * 0.5 + 0.5) * 0.2 +
      (Real.sin ((i : ℝ) * 0.1 + time * ((getParticleEffect settings).colorSpeed : ℝ)) * 0.5 + 0.5) * 0.1 +
      Real.sin (time * ((getParticleEffect settings).colorSpeed : ℝ) + (i : ℝ) * 0.1) *
        ((getParticleEffect settings).colorPulse : ℝ) := by
    have hs1 := Real.neg_one_le_sin (posLen * 0.1 + time * ((getParticleEffect settings).colorSpeed : ℝ))
    have hs2 := Real.neg_one_le_sin ((i : ℝ) * 0.1 + time * ((getParticleEffect settings).colorSpeed : ℝ))
    have hs3 := Real.neg_one_le_sin (time * ((getParticleEffect settings).colorSpeed : ℝ) + (i : ℝ) * 0.1)
    have hs3' := Real.sin_le_one (time * ((getParticleEffect settings).colorSpeed : ℝ) + (i : ℝ) * 0.1)
    nlinarith [mul_le_mul_of_nonneg_right hs3 hcp1r]
  refine ⟨?_, ?_, ?_, ?_⟩
  · intro hsel
    refine ⟨Real.sin (time * 5) * 0.2 + 0.8, ?_, ?_, ?_⟩
    · simp [updateParticleColors, hsel]
    · nlinarith [Real.neg_one_le_sin (time * 5)]
    · nlinarith [Real.sin_le_one (time * 5)]
  · intro hsel hhov
    simp [updateParticleColors, hsel, hhov]
  · intro hsel hhov
    simp [updateParticleColors, hsel, hhov]
  · by_cases hsel : sel = some i
    · have hout : updateParticleColors posLen i time settings sel hov =
          (Real.sin (time * 5) * 0.2 + 0.8, Real.sin (time * 5) * 0.2 + 0.8,
            Real.sin (time * 5) * 0.2 + 0.8) := by
        simp [updateParticleColors, hsel]
      rw [hout]
      dsimp only
      have l1 := Real.neg_one_le_sin (time * 5)
      have l2 := Real.sin_le_one (time * 5)
      refine ⟨by nlinarith, by nlinarith, by nlinarith, by nlinarith, by nlinarith,
        by nlinarith⟩
    · by_cases hhov : hov = some i
      · have hout : updateParticleColors posLen i time settings sel hov =
            (min (((paletteColor settings i).1 : ℝ) * 1.3 * (Real.sin (time * 3) * 0.15 + 0.85)) 1,
             min (((paletteColor settings i).2.1 : ℝ) * 1.3 * (Real.sin (time * 3) * 0.15 + 0.85)) 1,
             min (((paletteColor settings i).2.2 : ℝ) * 1.3 * (Real.sin (time * 3) * 0.15 + 0.85)) 1) := by
          simp [updateParticleColors, hsel, hhov]
        rw [hout]
        dsimp only
        refine ⟨?_, ?_, ?_, ?_, ?_, ?_⟩
        · exact (clamp01_mem _ (mul_nonneg (mul_nonneg hb1r (by norm_num)) hhover)).1
        · exact (clamp01_mem _ (mul_nonneg (mul_nonneg hb1r (by norm_num)) hhover)).2
        · exact (clamp01_mem _ (mul_nonneg (mul_nonneg hb3r (by norm_num)) hhover)).1
        · exact (clamp01_mem _ (mul_nonneg (mul_nonneg hb3r (by norm_num)) hhover)).2
        · exact (clamp01_mem _ (mul_nonneg (mul_nonneg hb5r (by norm_num)) hhover)).1
        · exact (clamp01_mem _ (mul_nonneg (mul_nonneg hb5r (by norm_num)) hhover)).2
      · have hout : updateParticleColors posLen i time settings sel hov =
            (min (((paletteColor settings i).1 : ℝ) *
                (0.7 + (Real.sin (posLen * 0.1 + time * ((getParticleEffect settings).colorSpeed : ℝ)) * 0.5 + 0.5) * 0.2 +
                  (Real.sin ((i : ℝ) * 0.1 + time * ((getParticleEffect settings).colorSpeed : ℝ)) * 0.5 + 0.5) * 0.1 +
                  Real.sin (time * ((getParticleEffect settings).colorSpeed : ℝ) + (i : ℝ) * 0.1) *
                    ((getParticleEffect settings).colorPulse : ℝ))) 1,
             min (((paletteColor settings i).2.1 : ℝ) *
                (0.7 + (Real.sin (posLen * 0.1 + time * ((getParticleEffect settings).colorSpeed : ℝ)) * 0.5 + 0.5) * 0.2 +
                  (Real.sin ((i : ℝ) * 0.1 + time * ((getParticleEffect settings).colorSpeed : ℝ)) * 0.5 + 0.5) * 0.1 +
                  Real.sin (time * ((getParticleEffect settings).colorSpeed : ℝ) + (i : ℝ) * 0.1) *
                    ((getParticleEffect settings).colorPulse : ℝ))) 1,
             min (((paletteColor settings i).2.2 : ℝ) *
                (0.7 + (Real.sin (posLen * 0.1 + time * ((getParticleEffect settings).colorSpeed : ℝ)) * 0.5 + 0.5) * 0.2 +
                  (Real.sin ((i : ℝ) * 0.1 + time * ((getParticleEffect settings).colorSpeed : ℝ)) * 0.5 + 0.5) * 0.1 +
                  Real.sin (time * ((getParticleEffect settings).colorSpeed : ℝ) + (i : ℝ) * 0.1) *
                    ((getParticleEffect settings).colorPulse : ℝ))) 1) := by
          simp [updateParticleColors, hsel, hhov]
        rw [hout]
        dsimp only
        refine ⟨?_, ?_, ?_, ?_, ?_, ?_⟩
        · exact (clamp01_mem _ (mul_nonneg hb1r hinten)).1
        · exact (clamp01_mem _ (mul_nonneg hb1r hinten)).2
        · exact (clamp01_mem _ (mul_nonneg hb3r hinten)).1
        · exact (clamp01_mem _ (mul_nonneg hb3r hinten)).2
        · exact (clamp01_mem _ (mul_nonneg hb5r hinten)).1
        · exact (clamp01_mem _ (mul_nonneg hb5r hinten)).2

/-- C6 witness: at the calm preset with node 0 both selected and
    hovered at time 0, the written color is near-white with equal
    channels (selection wins over hover) and the first channel lies in
    [0, 1]. -/
theorem updateParticleColors_priority_witness :
    (∃ p, updateParticleColors 0 0 0 calm (some 0) (some 0) = (p, p, p) ∧
      0.6 ≤ p ∧ p ≤ 1) ∧
    0 ≤ (updateParticleColors 0 0 0 calm (some 0) (some 0)).1 :=
  have H := updateParticleColors_priority 0 0 0 calm (some 0) (some 0)
    (by
      intro c hc
      simp only [calm, List.mem_cons, List.not_mem_nil, or_false] at hc
      rcases hc with h | h | h | h <;> subst h <;> norm_num)
  ⟨H.1 rfl, H.2.2.2.1⟩

theorem abs_mul_le_bound (a b c d : ℝ) (ha : |a| ≤ c) (hb : |b| ≤ d) :
    |a * b| ≤ c * d := by
  rw [abs_mul]
  exact mul_le_mul ha hb (abs_nonneg b) (le_trans (abs_nonneg a) ha)

theorem bound_formX (θ φ ψ r : ℝ) :
    |Real.cos θ * (r + Real.sin φ * 5) + Real.sin ψ * 5| ≤ |r| + 10 := by
  have hin : |r + Real.sin φ * 5| ≤ |r| + 5 := by
    have h5 : |Real.sin φ * 5| ≤ 1 * 5 :=
      abs_mul_le_bound _ _ _ _ (Real.abs_sin_le_one φ) (by norm_num)
    calc |r + Real.sin φ * 5| ≤ |r| + |Real.sin φ * 5| := abs_add _ _
      _ ≤ |r| + 5 := by linarith
  have h1 : |Real.cos θ * (r + Real.sin φ * 5)| ≤ 1 * (|r| + 5) :=
    abs_mul_le_bound _ _ _ _ (Real.abs_cos_le_one θ) hin
  have h2 : |Real.sin ψ * 5| ≤ 1 * 5 :=
    abs_mul_le_bound _ _ _ _ (Real.abs_sin_le_one ψ) (by norm_num)
  calc |Real.cos θ * (r + Real.sin φ * 5) + Real.sin ψ * 5|
      ≤ |Real.cos θ * (r + Real.sin φ * 5)| + |Real.sin ψ * 5| := abs_add _ _
    _ ≤ 1 * (|r| + 5) + 1 * 5 := add_le_add h1 h2
    _ = |r| + 10 := by ring

theorem bound_formZ (θ φ ψ r : ℝ) :
    |Real.sin θ * (r + Real.sin φ * 5) + Real.cos ψ * 5| ≤ |r| + 10 := by
  have hin : |r + Real.sin φ * 5| ≤ |r| + 5 := by
    have h5 : |Real.sin φ * 5| ≤ 1 * 5 :=
      abs_mul_le_bound _ _ _ _ (Real.abs_sin_le_one φ) (by norm_num)
    calc |r + Real.sin φ * 5| ≤ |r| + |Real.sin φ * 5| := abs_add _ _
      _ ≤ |r| + 5 := by linarith
  have h1 : |Real.sin θ * (r + Real.sin φ * 5)| ≤ 1 * (|r| + 5) :=
    abs_mul_le_bound _ _ _ _ (Real.abs_sin_le_one θ) hin
  have h2 : |Real.cos ψ * 5| ≤ 1 * 5 :=
    abs_mul_le_bound _ _ _ _ (Real.abs_cos_le_one ψ) (by norm_num)
  calc |Real.sin θ * (r + Real.sin φ * 5) + Real.cos ψ * 5|
      ≤ |Real.sin θ * (r + Real.sin φ * 5)| + |Real.cos ψ * 5| := abs_add _ _
    _ ≤ 1 * (|r| + 5) + 1 * 5 := add_le_add h1 h2
    _ = |r| + 10 := by ring

theorem bound_formY (a b c ψ amp : ℝ) :
    |(Real.sin a * 0.4 + Real.cos b * 0.3 + Real.sin c * 0.3) * amp +
      Real.sin ψ * 2| ≤ |amp| + 2 := by
  have hw : |Real.sin a * 0.4 + Real.cos b * 0.3 + Real.sin c * 0.3| ≤ 1 := by
    have h1 : |Real.sin a * 0.4| ≤ 1 * 0.4 :=
      abs_mul_le_bound _ _ _ _ (Real.abs_sin_le_one a)
        (by rw [abs_of_nonneg] ; norm_num)
    have h2 : |Real.cos b * 0.3| ≤ 1 * 0.3 :=
      abs_mul_le_bound _ _ _ _ (Real.abs_cos_le_one b)
        (by rw [abs_of_nonneg] ; norm_num)
    have h3 : |Real.sin c * 0.3| ≤ 1 * 0.3 :=
      abs_mul_le_bound _ _ _ _ (Real.abs_sin_le_one c)
        (by rw [abs_of_nonneg] ; norm_num)
    calc |Real.sin a * 0.4 + Real.cos b * 0.3 + Real.sin c * 0.3|
        ≤ |Real.sin a * 0.4 + Real.cos b * 0.3| + |Real.sin c * 0.3| := abs_add _ _
      _ ≤ |Real.sin a * 0.4| + |Real.cos b * 0.3| + |Real.sin c * 0.3| := by
          linarith [abs_add (Real.sin a * 0.4) (Real.cos b * 0.3)]
      _ ≤ 1 := by linarith
  have h1 : |(Real.sin a * 0.4 + Real.cos b * 0.3 + Real.sin c * 0.3) * amp| ≤
      1 * |amp| := abs_mul_le_bound _ _ _ _ hw le_rfl
  have h2 : |Real.sin ψ * 2| ≤ 1 * 2 :=
    abs_mul_le_bound _ _ _ _ (Real.abs_sin_le_one ψ) (by norm_num)
  calc |(Real.sin a * 0.4 + Real.cos b * 0.3 + Real.sin c * 0.3) * amp + Real.sin ψ * 2|
      ≤ |(Real.sin a * 0.4 + Real.cos b * 0.3 + Real.sin c * 0.3) * amp| +
        |Real.sin ψ * 2| := abs_add _ _
    _ ≤ 1 * |amp| + 1 * 2 := add_le_add h1 h2
    _ = |amp| + 2 := by ring

theorem calm_target_bounds (nodeCount i : ℕ) (time : ℝ) (pos : ℝ × ℝ × ℝ) :
    |(computeTarget calm nodeCount i time pos).1| ≤ 35 ∧
      |(computeTarget calm nodeCount i time pos).2.1| ≤ 12 ∧
      |(computeTarget calm nodeCount i time pos).2.2| ≤ 35 := by
  refine ⟨?_, ?_, ?_⟩
  · simp only [computeTarget, calm, Option.getD_some]
    refine le_trans (bound_formX _ _ _ _) ?_
    norm_num
  · simp only [computeTarget, calm, Option.getD_some]
    refine le_trans (bound_formY _ _ _ _ _) ?_
    norm_num
  · simp only [computeTarget, calm, Option.getD_some]
    refine le_trans (bound_formZ _ _ _ _) ?_
    norm_num

theorem isSecondStrand300_iff (i : ℕ) : isSecondStrand 300 i = true ↔ 150 ≤ i := by
  have h : (300 : ℕ) = 2 * 150 := by norm_num
  rw [h]
  exact isSecondStrand_iff 150 i

theorem strandIndex300_mem (i : ℕ) (hi : i < 300) :
    0 ≤ strandIndex 300 i ∧ strandIndex 300 i ≤ 150 := by
  have hc : ((300 : ℕ) : ℝ) / 2 = 150 := by norm_num
  by_cases h : isSecondStrand 300 i = true
  · rw [strandIndex, if_pos h, hc]
    have h150 : 150 ≤ i := (isSecondStrand300_iff i).mp h
    have h1 : (150 : ℝ) ≤ (i : ℝ) := by exact_mod_cast h150
    have h2 : (i : ℝ) ≤ 300 := by exact_mod_cast le_of_lt hi
    constructor <;> linarith
  · rw [strandIndex, if_neg h]
    have h150 : i < 150 := by
      by_contra hcon
      exact h ((isSecondStrand300_iff i).mpr (by omega))
    have h1 : (i : ℝ) ≤ 150 := by exact_mod_cast le_of_lt h150
    constructor
    · exact Nat.cast_nonneg i
    · exact h1

theorem heightProgress300_mem (i : ℕ) (hi : i < 300) :
    |heightProgress 300 i| ≤ 1 := by
  obtain ⟨h0, h1⟩ := strandIndex300_mem i hi
  have hc : ((300 : ℕ) : ℝ) / 2 = 150 := by norm_num
  rw [heightProgress, hc, abs_le]
  constructor <;> nlinarith

theorem initialPosition_bounds (i : ℕ) (hi : i < 300) :
    |(initialPosition 300 i).1| ≤ 15 ∧ |(initialPosition 300 i).2.1| ≤ 40 ∧
      |(initialPosition 300 i).2.2| ≤ 15 := by
  refine ⟨?_, ?_, ?_⟩
  · have h := abs_mul_le_bound (Real.cos (baseAngle 300 i)) helixRadius 1 15
      (Real.abs_cos_le_one _) (by rw [helixRadius]; norm_num)
    simp only [initialPosition]
    linarith
  · have h := abs_mul_le_bound (heightProgress 300 i) helixHeight 1 40
      (heightProgress300_mem i hi) (by rw [helixHeight]; norm_num)
    simp only [initialPosition]
    linarith
  · have h := abs_mul_le_bound (Real.sin (baseAngle 300 i)) helixRadius 1 15
      (Real.abs_sin_le_one _) (by rw [helixRadius]; norm_num)
    simp only [initialPosition]
    linarith

theorem axis_step_bound (p t r P T : ℝ) (hp : |p| ≤ P) (ht : |t| ≤ T)
    (hr0 : 0 ≤ r) (hr1 : r < 1) (hP : P ≤ 40) (hT : T ≤ 35) :
    |p + (t - p) * 0.015 + (r - 0.5) * 0.01| ≤ 50 := by
  rw [abs_le] at hp ht ⊢
  constructor <;> nlinarith [hp.1, hp.2, ht.1, ht.2]

/-- C8: one frame of `animate` on the initial 300-node double helix
    under the flow (calm) preset keeps every node position finite
    (bounded by 50 on each axis, in particular neither NaN nor
    infinite) and does not mutate `selectedNode` or `hoveredNode`. -/
theorem animate_flow_frame (time : ℝ) (colors0 : ℕ → ℝ × ℝ × ℝ)
    (sizes0 : ℕ → ℝ) (sel hov : Option ℕ) (rnd : ℕ → ℝ × ℝ × ℝ)
    (hrnd : ∀ k, 0 ≤ (rnd k).1 ∧ (rnd k).1 < 1 ∧ 0 ≤ (rnd k).2.1 ∧
      (rnd k).2.1 < 1 ∧ 0 ≤ (rnd k).2.2 ∧ (rnd k).2.2 < 1) :
    (∀ i, i < 300 →
      |((animateFrame calm 300 time rnd (engineStart colors0 sizes0 sel hov)).positions i).1| ≤ 50 ∧
      |((animateFrame calm 300 time rnd (engineStart colors0 sizes0 sel hov)).positions i).2.1| ≤ 50 ∧
      |((animateFrame calm 300 time rnd (engineStart colors0 sizes0 sel hov)).positions i).2.2| ≤ 50) ∧
    (animateFrame calm 300 time rnd (engineStart colors0 sizes0 sel hov)).selectedNode = sel ∧
    (animateFrame calm 300 time rnd (engineStart colors0 sizes0 sel hov)).hoveredNode = hov := by
  refine ⟨?_, rfl, rfl⟩
  intro i hi
  have hpos : (animateFrame calm 300 time rnd (engineStart colors0 sizes0 sel hov)).positions i =
      updateNodePosition calm 300 i time (initialPosition 300 i) (rnd i) := by
    simp [animateFrame, engineStart, hi]
  obtain ⟨hx, hy, hz⟩ := initialPosition_bounds i hi
  obtain ⟨tx, ty, tz⟩ := calm_target_bounds 300 i time (initialPosition 300 i)
  obtain ⟨hr1, hr2, hr3, hr4, hr5, hr6⟩ := hrnd i
  have hl : ((getParticleEffect calm).lerpFactor : ℝ) = 0.015 := by
    norm_num [getParticleEffect, calm]
  have hrd : ((getParticleEffect calm).randomness : ℝ) = 0.01 := by
    norm_num [getParticleEffect, calm]
  rw [hpos]
  refine ⟨?_, ?_, ?_⟩
  · have hax : (updateNodePosition calm 300 i time (initialPosition 300 i) (rnd i)).1 =
        (initialPosition 300 i).1 +
          ((computeTarget calm 300 i time (initialPosition 300 i)).1 -
            (initialPosition 300 i).1) * 0.015 + ((rnd i).1 - 0.5) * 0.01 := by
      simp [updateNodePosition, hl, hrd]
    rw [hax]
    exact axis_step_bound _ _ _ 15 35 hx tx hr1 hr2 (by norm_num) (by norm_num)
  · have hax : (updateNodePosition calm 300 i time (initialPosition 300 i) (rnd i)).2.1 =
        (initialPosition 300 i).2.1 +
          ((computeTarget calm 300 i time (initialPosition 300 i)).2.1 -
            (initialPosition 300 i).2.1) * 0.015 + ((rnd i).2.1 - 0.5) * 0.01 := by
      simp [updateNodePosition, hl, hrd]
    rw [hax]
    exact axis_step_bound _ _ _ 40 12 hy ty hr3 hr4 (by norm_num) (by norm_num)
  · have hax : (updateNodePosition calm 300 i time (initialPosition 300 i) (rnd i)).2.2 =
        (initialPosition 300 i).2.2 +
          ((computeTarget calm 300 i time (initialPosition 300 i)).2.2 -
            (initialPosition 300 i).2.2) * 0.015 + ((rnd i).2.2 - 0.5) * 0.01 := by
      simp [updateNodePosition, hl, hrd]
    rw [hax]
    exact axis_step_bound _ _ _ 15 35 hz tz hr5 hr6 (by norm_num) (by norm_num)

/-- C8 witness: the frame bound and selection preservation at a
    concrete start (all random draws 1/2, nothing selected, time 0),
    for node 0. -/
theorem animate_flow_frame_witness :
    |((animateFrame calm 300 0 (fun _ => (1/2, 1/2, 1/2))
        (engineStart (fun _ => (0, 0, 0)) (fun _ => 1) none none)).positions 0).1| ≤ 50 ∧
    (animateFrame calm 300 0 (fun _ => (1/2, 1/2, 1/2))
        (engineStart (fun _ => (0, 0, 0)) (fun _ => 1) none none)).selectedNode = none :=
  have H := animate_flow_frame 0 (fun _ => (0, 0, 0)) (fun _ => 1) none none
    (fun _ => (1/2, 1/2, 1/2)) (fun _ => by norm_num)
  ⟨(H.1 0 (by norm_num)).1, H.2.1⟩

/-- C7: no statement of the per-frame loop writes the size buffer: the
    frame leaves `sizes` unchanged for every input, while the pulsing
    value the spec describes (`basePulse`) evaluates at the calm preset,
    node 0, time π/1.6 to 1.15 ≠ 1, so the size entry (whatever its
    retained value) is not overwritten with the pulse each frame. -/
theorem animate_sizes_unchanged :
    (∀ (settings : MoodSettings) (nodeCount : ℕ) (time : ℝ)
      (rnd : ℕ → ℝ × ℝ × ℝ) (s : EngineState),
      (animateFrame settings nodeCount time rnd s).sizes = s.sizes) ∧
    basePulse (Real.pi / 1.6) 0 (getParticleEffect calm) = 1.15 ∧
    (1.15 : ℝ) ≠ 1 := by
  refine ⟨fun _ _ _ _ _ => rfl, ?_, by norm_num⟩
  have hps : ((getParticleEffect calm).pulseSpeed : ℝ) = 0.8 := by
    norm_num [getParticleEffect, calm]
  have hpi : ((getParticleEffect calm).pulseIntensity : ℝ) = 0.15 := by
    norm_num [getParticleEffect, calm]
  rw [basePulse, hps, hpi]
  have harg : Real.pi / 1.6 * 0.8 + ((0 : ℕ) : ℝ) * 0.1 = Real.pi / 2 := by
    push_cast
    ring
  rw [harg, Real.sin_pi_div_two]
  norm_num

/-- C9: once the liveness flag is false, every subsequently fired
    `animate` callback is a no-op: it neither mutates the engine state
    (over any sequence of callback inputs) nor reschedules itself or
    renders (the boolean result is false). -/
theorem teardown_callbacks_noop (settings : MoodSettings) (nodeCount : ℕ)
    (inputs : List (ℝ × (ℕ → ℝ × ℝ × ℝ))) (s : EngineState) :
    inputs.foldl
      (fun st inp => (animateCallback false settings nodeCount inp.1 inp.2 st).1) s = s ∧
    ∀ (time : ℝ) (rnd : ℕ → ℝ × ℝ × ℝ),
      (animateCallback false settings nodeCount time rnd s).2 = false := by
  constructor
  · induction inputs with
    | nil => rfl
    | cons head tail ih => exact ih
  · intro time rnd
    rfl

end Showcase
